import Mathlib

/-!
Verification of the DoubleAgent orchestrator core: the stdio RPC protocol
and dispatcher (`pkg/sdk`), the external-plugin adapter (`ExternalPlugin`),
and the engine (`internal/engine`).  Go structs become Lean structures,
typed JSON payloads become an explicit `Payload` inductive (Go's
`json.Marshal`/`json.Unmarshal` round trip on these structs is the identity
on the data, so a payload is carried structurally and a decoder checks the
constructor), machine `int` request ids become `Nat`, stateful methods
become explicit state passing, and the subprocess side of a stdio
connection is modelled as a script of per-round-trip transport outcomes.
-/

namespace DoubleAgent

/-- `sdk.PluginInfo`: metadata about a plugin (pkg/sdk/plugin.go). -/
structure PluginInfo where
  name : String
  version : String
deriving DecidableEq, Repr

/-- `sdk.ConfigureParams`: parameters for the `configure` method. -/
structure ConfigureParams where
  env : List (String × String)
deriving DecidableEq, Repr

/-- `sdk.HTTPRequestParams`: parameters for the `http` method. -/
structure HTTPRequestParams where
  method : String
  path : String
  headers : List (String × String)
  body : String
deriving DecidableEq, Repr

/-- `sdk.HTTPResult`: result of the `http` method. -/
structure HTTPResult where
  status : Nat
  headers : List (String × String)
  body : String
deriving DecidableEq, Repr

/-- A typed model of a `json.RawMessage` payload travelling in a `Request.Params`
or `Response.Result` field.  `raw` stands for any JSON value that does not
decode as one of the protocol's typed payloads. -/
inductive Payload
  | infoP (i : PluginInfo)
  | emptyObj
  | httpReqP (p : HTTPRequestParams)
  | httpResP (r : HTTPResult)
  | confP (c : ConfigureParams)
  | raw (s : String)
deriving DecidableEq, Repr

/-- `sdk.Request`: a JSON-line message from host to plugin.  `params := none`
models an absent (`omitempty`) params field. -/
structure Request where
  id : Nat
  method : String
  params : Option Payload
deriving DecidableEq, Repr

/-- `sdk.Response`: a JSON-line message from plugin to host.  The Go zero
value has `ID = 0`, `Result = nil`, `Error = ""`. -/
structure Response where
  id : Nat
  result : Option Payload
  error : String
deriving DecidableEq, Repr

/-- Model of `json.Unmarshal` of a raw params payload into `ConfigureParams`:
succeeds exactly when the payload is a configure-params object. -/
def decodeConfigureParams : Option Payload → Except String ConfigureParams
  | some (.confP c) => .ok c
  | _ => .error "json: cannot unmarshal into ConfigureParams"

/-- Model of `json.Unmarshal` of a raw params payload into `HTTPRequestParams`. -/
def decodeHTTPRequestParams : Option Payload → Except String HTTPRequestParams
  | some (.httpReqP p) => .ok p
  | _ => .error "json: cannot unmarshal into HTTPRequestParams"

/-- Model of `json.Unmarshal` of a raw result payload into `HTTPResult`. -/
def decodeHTTPResult : Option Payload → Except String HTTPResult
  | some (.httpResP r) => .ok r
  | _ => .error "json: cannot unmarshal into HTTPResult"

/-- Model of `json.Unmarshal` of a raw result payload into `PluginInfo`. -/
def decodePluginInfo : Option Payload → Except String PluginInfo
  | some (.infoP i) => .ok i
  | _ => .error "json: cannot unmarshal into PluginInfo"

/-- One hexadecimal digit, lowercase, as `strconv` prints it. -/
def hexDigit (n : Nat) : Char :=
  if n < 10 then Char.ofNat (48 + n) else Char.ofNat (87 + n)

/-- Escape of a single character under Go's `%q` verb (`strconv.Quote`),
restricted to the byte range: named escapes for the usual control characters,
`\xHH` for the remaining non-printable bytes, the character itself otherwise. -/
def goQuoteChar (c : Char) : String :=
  if c = '"' then "\\\""
  else if c = '\\' then "\\\\"
  else if c = '\n' then "\\n"
  else if c = '\r' then "\\r"
  else if c = '\t' then "\\t"
  else if c.val = 7 then "\\a"
  else if c.val = 8 then "\\b"
  else if c.val = 11 then "\\v"
  else if c.val = 12 then "\\f"
  else if c.val < 32 ∨ c.val = 127 then
    "\\x" ++ String.singleton (hexDigit (c.val.toNat / 16)) ++
      String.singleton (hexDigit (c.val.toNat % 16))
  else String.singleton c

/-- Go's `%q` formatting of a string: double quotes around the escaped body. -/
def goQuote (s : String) : String :=
  "\"" ++ String.join (s.data.map goQuoteChar) ++ "\""

/-- Which of the four plugin operations the dispatcher invoked, recorded as a
trace so "no plugin operation is invoked" is a statement about the trace. -/
inductive PluginOp
  | infoOp
  | configureOp
  | serveHTTPOp
  | resetOp
deriving DecidableEq, Repr

/-- A plugin as the dispatcher sees it (`sdk.Plugin`), over an explicit state
type `σ`.  `configure` and `reset` return the Go error as `Option String`
alongside the possibly mutated state.  `serveHTTP` is the plugin's handler
observed through the `httptest` recorder: it maps the delivered
`HTTPRequestParams` to a resulting state and an `HTTPResult`.  `newReqErr`
models the `http.NewRequest` validity check in `handleHTTP`: `some msg` when
building the inner request fails. -/
structure PluginModel (σ : Type) where
  info : σ → PluginInfo
  configure : σ → List (String × String) → σ × Option String
  newReqErr : HTTPRequestParams → Option String
  serveHTTP : σ → HTTPRequestParams → σ × HTTPResult
  reset : σ → σ × Option String

/-- `handleInfo` (part_006): always succeeds, result is the marshalled info. -/
def handleInfo {σ : Type} (pm : PluginModel σ) (s : σ) (req : Request) :
    σ × List PluginOp × Response :=
  (s, [.infoOp], { id := req.id, result := some (.infoP (pm.info s)), error := "" })

/-- `handleConfigure` (part_006): decode params, run `Configure`, report. -/
def handleConfigure {σ : Type} (pm : PluginModel σ) (s : σ) (req : Request) :
    σ × List PluginOp × Response :=
  match decodeConfigureParams req.params with
  | .error m =>
      (s, [], { id := req.id, result := none, error := "invalid configure params: " ++ m })
  | .ok c =>
      let r := pm.configure s c.env
      match r.2 with
      | some m => (r.1, [.configureOp], { id := req.id, result := none, error := m })
      | none => (r.1, [.configureOp], { id := req.id, result := some .emptyObj, error := "" })

/-- `handleHTTP` (part_006): decode params, build the inner request, run the
plugin through the recorder, marshal the recorded status/headers/body. -/
def handleHTTP {σ : Type} (pm : PluginModel σ) (s : σ) (req : Request) :
    σ × List PluginOp × Response :=
  match decodeHTTPRequestParams req.params with
  | .error m =>
      (s, [], { id := req.id, result := none, error := "invalid http params: " ++ m })
  | .ok p =>
      match pm.newReqErr p with
      | some m =>
          (s, [], { id := req.id, result := none, error := "creating request: " ++ m })
      | none =>
          let r := pm.serveHTTP s p
          (r.1, [.serveHTTPOp], { id := req.id, result := some (.httpResP r.2), error := "" })

/-- `handleReset` (part_006): run `Reset`, report. -/
def handleReset {σ : Type} (pm : PluginModel σ) (s : σ) (req : Request) :
    σ × List PluginOp × Response :=
  let r := pm.reset s
  match r.2 with
  | some m => (r.1, [.resetOp], { id := req.id, result := none, error := m })
  | none => (r.1, [.resetOp], { id := req.id, result := some .emptyObj, error := "" })

/-- `dispatch` (part_006): route on the method name; the default branch
formats the unknown name with `%q`. -/
def dispatch {σ : Type} (pm : PluginModel σ) (s : σ) (req : Request) :
    σ × List PluginOp × Response :=
  if req.method = "info" then handleInfo pm s req
  else if req.method = "configure" then handleConfigure pm s req
  else if req.method = "http" then handleHTTP pm s req
  else if req.method = "reset" then handleReset pm s req
  else (s, [], { id := req.id, result := none,
                 error := "unknown method: " ++ goQuote req.method })

/-- The whitespace set of Go's `bytes.TrimSpace` (`unicode.IsSpace`),
restricted to Latin-1. -/
def goIsSpace (c : Char) : Bool :=
  c = ' ' ∨ c = '\t' ∨ c = '\n' ∨ c = '\r' ∨
    c.val = 11 ∨ c.val = 12 ∨ c.val = 133 ∨ c.val = 160

/-- `len(bytes.TrimSpace(line)) == 0`: every character is whitespace. -/
def isBlank (line : String) : Bool :=
  line.data.all goIsSpace

/-- One iteration of the `Serve` loop (part_006) on one stdin line.  `dec`
models `json.Unmarshal` of the line into a `Request` (abstract, since the
loop's behaviour depends only on whether it succeeds).  Returns the plugin
state, the trace of invoked plugin operations, and the responses written. -/
def serveLine {σ : Type} (dec : String → Except String Request)
    (pm : PluginModel σ) (s : σ) (line : String) :
    σ × List PluginOp × List Response :=
  if isBlank line then (s, [], [])
  else
    match dec line with
    | .error m =>
        (s, [], [{ id := 0, result := none, error := "invalid request: " ++ m }])
    | .ok req =>
        let r := dispatch pm s req
        (r.1, r.2.1, [r.2.2])

/-- The whole `Serve` loop over a list of stdin lines, accumulating the
operation trace and the written responses in order. -/
def serveLines {σ : Type} (dec : String → Except String Request)
    (pm : PluginModel σ) (s : σ) : List String → σ × List PluginOp × List Response
  | [] => (s, [], [])
  | line :: rest =>
      let r := serveLine dec pm s line
      let r' := serveLines dec pm r.1 rest
      (r'.1, r.2.1 ++ r'.2.1, r.2.2 ++ r'.2.2)

/-! ## External plugin adapter (part_007, `ExternalPlugin`)

The adapter's mutable fields `next` (request-id counter) and `info` (cached
`PluginInfo`) form the explicit state.  The subprocess and the pipes are
modelled by a script: one `Transport` outcome per request/response round
trip, consumed in order.  The mutex serialising round trips is reflected in
the sequential threading of state and script. -/

/-- The adapter state: `StartExternalPlugin` initialises `next := 1` and the
cached info to the zero value. -/
structure ExtState where
  next : Nat
  info : PluginInfo
deriving DecidableEq, Repr

/-- Outcome of one request/response round trip as seen by
`ExternalPlugin.call`: the write to stdin fails, reading stdout fails,
stdout is closed (scanner stops with no error), the response line is not
valid JSON, or a `Response` arrives. -/
inductive Transport
  | ok (resp : Response)
  | writeErr (msg : String)
  | readErr (msg : String)
  | closed
  | badJson (msg : String)
deriving DecidableEq, Repr

/-- `ExternalPlugin.call`: take the current id and increment the counter
(before any I/O, as in the source), send the request, then interpret the
next transport outcome; a response with a non-empty `error` field becomes a
`plugin error:` failure.  Returns the new state, the remaining script, the
request that was sent, and the call's result.  An exhausted script behaves
as a closed stdout. -/
def ExternalPlugin.call (st : ExtState) (method : String) (params : Option Payload)
    (script : List Transport) :
    ExtState × List Transport × Request × Except String Response :=
  let req : Request := { id := st.next, method := method, params := params }
  let st' : ExtState := { st with next := st.next + 1 }
  match script with
  | [] => (st', [], req, .error "plugin closed stdout unexpectedly")
  | t :: rest =>
    match t with
    | .writeErr m => (st', rest, req, .error ("writing to plugin stdin: " ++ m))
    | .readErr m => (st', rest, req, .error ("reading plugin stdout: " ++ m))
    | .closed => (st', rest, req, .error "plugin closed stdout unexpectedly")
    | .badJson m => (st', rest, req, .error ("unmarshaling response: " ++ m))
    | .ok resp =>
        if resp.error = "" then (st', rest, req, .ok resp)
        else (st', rest, req, .error ("plugin error: " ++ resp.error))

/-- `ExternalPlugin.Info`: returns the cached info; no protocol call is made
(the function does not touch the transport script at all). -/
def ExternalPlugin.infoFn (st : ExtState) : PluginInfo :=
  st.info

/-- `ExternalPlugin.Configure`: under one critical section, an `info` call
whose decoded result is cached, then a `configure` call with the environment
map.  Returns the final state, the remaining script, the requests sent, and
the error if any. -/
def ExternalPlugin.configure (st : ExtState) (script : List Transport)
    (env : List (String × String)) :
    ExtState × List Transport × List Request × Option String :=
  let c1 := ExternalPlugin.call st "info" none script
  match c1.2.2.2 with
  | .error e => (c1.1, c1.2.1, [c1.2.2.1], some ("getting plugin info: " ++ e))
  | .ok resp =>
    match decodePluginInfo resp.result with
    | .error m => (c1.1, c1.2.1, [c1.2.2.1], some ("unmarshaling plugin info: " ++ m))
    | .ok i =>
      let st2 : ExtState := { c1.1 with info := i }
      let c2 := ExternalPlugin.call st2 "configure" (some (.confP { env := env })) c1.2.1
      match c2.2.2.2 with
      | .error e => (c2.1, c2.2.1, [c1.2.2.1, c2.2.2.1], some e)
      | .ok _ => (c2.1, c2.2.1, [c1.2.2.1, c2.2.2.1], none)

/-- An HTTP response as written to the real `http.ResponseWriter`:
the status sent by `WriteHeader`, the headers set before it, and the body. -/
structure HTTPRespOut where
  status : Nat
  headers : List (String × String)
  body : String
deriving DecidableEq, Repr

/-- `http.Error(w, msg, code)`: plain-text headers, the message plus a
trailing newline as the body. -/
def httpError (msg : String) (code : Nat) : HTTPRespOut :=
  { status := code,
    headers := [("Content-Type", "text/plain; charset=utf-8"),
                ("X-Content-Type-Options", "nosniff")],
    body := msg ++ "\n" }

/-- `ExternalPlugin.ServeHTTP`: build `HTTPRequestParams` from the inbound
request (the path gets `"?" ++ rawQuery` appended exactly when the raw query
is non-empty), issue one `http` call, decode the `HTTPResult`, and replay
its headers, status, and body onto the response; any call or decode failure
becomes a 502 via `http.Error`.  Returns the new state, remaining script,
the requests sent, and the response written. -/
def ExternalPlugin.serveHTTP (st : ExtState) (script : List Transport)
    (method urlPath rawQuery : String) (headers : List (String × String))
    (body : String) :
    ExtState × List Transport × List Request × HTTPRespOut :=
  let params : HTTPRequestParams :=
    { method := method,
      path := if rawQuery = "" then urlPath else urlPath ++ "?" ++ rawQuery,
      headers := headers,
      body := body }
  let c := ExternalPlugin.call st "http" (some (.httpReqP params)) script
  match c.2.2.2 with
  | .error e => (c.1, c.2.1, [c.2.2.1], httpError e 502)
  | .ok resp =>
    match decodeHTTPResult resp.result with
    | .error m => (c.1, c.2.1, [c.2.2.1], httpError ("unmarshaling http result: " ++ m) 502)
    | .ok result =>
        (c.1, c.2.1, [c.2.2.1],
         { status := result.status, headers := result.headers, body := result.body })

/-- `ExternalPlugin.Reset`: one `reset` call; its error is returned as is. -/
def ExternalPlugin.resetFn (st : ExtState) (script : List Transport) :
    ExtState × List Transport × List Request × Option String :=
  let c := ExternalPlugin.call st "reset" none script
  match c.2.2.2 with
  | .error e => (c.1, c.2.1, [c.2.2.1], some e)
  | .ok _ => (c.1, c.2.1, [c.2.2.1], none)

/-- A sequence of protocol calls on one adapter, each given as a method name
and optional params: every call completes its round trip (consumes its
transport outcome) before the next is issued.  Collects the requests sent. -/
def runCalls (st : ExtState) : List (String × Option Payload) → List Transport →
    ExtState × List Transport × List Request
  | [], script => (st, script, [])
  | (m, p) :: rest, script =>
      let c := ExternalPlugin.call st m p script
      let r := runCalls c.1 rest c.2.1
      (r.1, r.2.1, c.2.2.1 :: r.2.2)

/-! ## Engine (internal/engine/engine.go) -/

/-- `config.Service` (part_002): one service block of the configuration. -/
structure Service where
  type : String
  name : String
  port : Nat
  version : String
  command : List String
  env : List (String × String)
deriving DecidableEq, Repr

/-- The errors `engine.New` can return, one constructor per `fmt.Errorf`
site, with `render` producing the formatted message. -/
inductive EngError
  | startExternal (t n msg : String)
  | unknownPluginType (t : String)
  | configureFailed (t n msg : String)
deriving DecidableEq, Repr

/-- The message text of an `engine.New` error. -/
def EngError.render : EngError → String
  | .startExternal t n m => "starting external plugin " ++ t ++ "/" ++ n ++ ": " ++ m
  | .unknownPluginType t => "unknown plugin type: " ++ goQuote t
  | .configureFailed t n m => "configuring " ++ t ++ "/" ++ n ++ ": " ++ m

/-- An `engine.Instance` as far as construction is concerned: its config and
whether its plugin is external. -/
structure Inst where
  config : Service
  external : Bool
deriving DecidableEq, Repr

/-- `engine.New`: for each service in order, spawn an external plugin when a
command is present, otherwise look the type up in the built-in registry
(`reg` is its key set); then `Configure` the plugin.  Fail-fast: the first
failure aborts the whole build.  `spawnErr svc` models the result of
`sdk.StartExternalPlugin svc.command` and `confErr svc` the result of
`p.Configure(svc.env)` for the service's plugin. -/
def newEngine (reg : List String) (spawnErr confErr : Service → Option String) :
    List Service → Except EngError (List Inst)
  | [] => .ok []
  | svc :: rest =>
      if 0 < svc.command.length then
        match spawnErr svc with
        | some m => .error (.startExternal svc.type svc.name m)
        | none =>
          match confErr svc with
          | some m => .error (.configureFailed svc.type svc.name m)
          | none =>
            match newEngine reg spawnErr confErr rest with
            | .error e => .error e
            | .ok is => .ok ({ config := svc, external := true } :: is)
      else
        if svc.type ∈ reg then
          match confErr svc with
          | some m => .error (.configureFailed svc.type svc.name m)
          | none =>
            match newEngine reg spawnErr confErr rest with
            | .error e => .error e
            | .ok is => .ok ({ config := svc, external := false } :: is)
        else .error (.unknownPluginType svc.type)

/-- The reset handler `engine.New` installs at `POST /_/reset`:
`resetResult` is the outcome of `p.Reset()`.  Success writes status 200 and
`Fprintln` of the status-ok JSON object; failure goes through `http.Error`
with status 500. -/
def resetHandler (resetResult : Option String) : HTTPRespOut :=
  match resetResult with
  | some msg => httpError msg 500
  | none => { status := 200, headers := [], body := "\x7b\"status\":\"ok\"\x7d\n" }

/-- The per-instance mux built by `engine.New`: the pattern `POST /_/reset`
routes to the reset handler, everything else to the plugin itself
(`catchAll` is whatever the plugin would write). -/
def instanceHandler (resetResult : Option String) (catchAll : HTTPRespOut)
    (method path : String) : HTTPRespOut :=
  if method = "POST" ∧ path = "/_/reset" then resetHandler resetResult
  else catchAll

/-- The observable shutdown-phase events of `Engine.Run` after the context
is cancelled: `srv.Shutdown` on instance `i`, `external.Stop` on instance
`i`, and the final `wg.Wait` joining all serve routines. -/
inductive SEvent
  | shutdown (i : Nat)
  | stop (i : Nat)
  | joinAll
deriving DecidableEq, Repr

/-- The events emitted by the shutdown loop of `Engine.Run` for the
instances from index `i` on: one iteration per instance does `Shutdown`,
then `Stop` when the instance is external (`exts` lists, in instance order,
whether each instance is external). -/
def shutdownEvents (i : Nat) : List Bool → List SEvent
  | [] => []
  | ext :: rest =>
      SEvent.shutdown i :: (if ext then [SEvent.stop i] else []) ++
        shutdownEvents (i + 1) rest

/-- The full shutdown-phase trace of `Engine.Run`: the loop over instances,
then `wg.Wait`. -/
def shutdownTrace (exts : List Bool) : List SEvent :=
  shutdownEvents 0 exts ++ [SEvent.joinAll]

/-- `a` happens strictly before `b` in the trace `t`. -/
def precedes (t : List SEvent) (a b : SEvent) : Prop :=
  ∃ l₁ l₂ l₃, t = l₁ ++ a :: l₂ ++ b :: l₃

/-! ## Concrete instances used to exercise the theorems -/

/-- A trivial concrete plugin over the unit state: info is the github
plugin's, every operation succeeds. -/
def pmUnit : PluginModel Unit where
  info := fun _ => { name := "github", version := "v1" }
  configure := fun s _ => (s, none)
  newReqErr := fun _ => none
  serveHTTP := fun s _ => (s, { status := 200, headers := [], body := "" })
  reset := fun s => (s, none)

/-- A decoder on which every line fails to parse, with Go's message for an
empty JSON document. -/
def decFail : String → Except String Request :=
  fun _ => .error "unexpected end of JSON input"

/-- Does the next round trip fail as seen by the `http` path of
`ExternalPlugin.ServeHTTP`: transport error, closed or exhausted stream,
malformed response line, protocol-level error response, or a result that
does not decode as an `HTTPResult`. -/
def httpCallFails : List Transport → Bool
  | [] => true
  | .ok resp :: _ =>
      if resp.error = "" then
        match resp.result with
        | some (.httpResP _) => false
        | _ => true
      else true
  | _ :: _ => true

/-- Does the next round trip fail as seen by the `info` step of
`ExternalPlugin.Configure` (failure of the call itself or of decoding the
result as a `PluginInfo`). -/
def infoCallFails : List Transport → Bool
  | [] => true
  | .ok resp :: _ =>
      if resp.error = "" then
        match resp.result with
        | some (.infoP _) => false
        | _ => true
      else true
  | _ :: _ => true

/-- Does the next round trip fail as a bare call (the `configure` step of
`ExternalPlugin.Configure` only looks at the call's error). -/
def callFails : List Transport → Bool
  | [] => true
  | .ok resp :: _ => if resp.error = "" then false else true
  | _ :: _ => true

/-- One step of `engine.New` succeeds on this service: the spawn (for an
external config) or the registry lookup (for a built-in one), and then the
`Configure` call. -/
def buildsOk (reg : List String) (spawnErr confErr : Service → Option String)
    (svc : Service) : Prop :=
  if 0 < svc.command.length then spawnErr svc = none ∧ confErr svc = none
  else svc.type ∈ reg ∧ confErr svc = none

/-- The key set of the built-in registry (part_001). -/
def regGitJira : List String := ["github", "jira"]

/-- An external service whose subprocess command cannot be spawned. -/
def svcExt : Service :=
  { type := "custom", name := "bad", port := 9001, version := "",
    command := ["./nonexistent"], env := [] }

/-- A built-in service whose type is absent from the registry. -/
def svcUnknown : Service :=
  { type := "okta", name := "idp", port := 9002, version := "", command := [], env := [] }

/-- A spawn oracle on which exactly the service named `bad` fails to start. -/
def spawnFailBad : Service → Option String :=
  fun svc => if svc.name = "bad" then
    some "fork/exec ./nonexistent: no such file or directory" else none

/-- A configure oracle on which every `Configure` call succeeds. -/
def confOk : Service → Option String := fun _ => none

/-! ## Theorems -/

/-- C2: on an Instance built by `New`, `POST /_/reset` returns 200 with a
body containing the status-ok JSON object when the plugin's `Reset` returns
nil, and 500 with the error's text (as written by `http.Error`, which
appends a newline) as the body when `Reset` returns an error. -/
theorem reset_endpoint_statuses (err : String) (catchAll : HTTPRespOut) :
    (instanceHandler none catchAll "POST" "/_/reset").status = 200 ∧
    ("\"status\":\"ok\"").data <:+: (instanceHandler none catchAll "POST" "/_/reset").body.data ∧
    (instanceHandler (some err) catchAll "POST" "/_/reset").status = 500 ∧
    (instanceHandler (some err) catchAll "POST" "/_/reset").body = err ++ "\n" ∧
    err.data <+: (instanceHandler (some err) catchAll "POST" "/_/reset").body.data := by
  refine ⟨?_, ?_, ?_, ?_, ?_⟩
  · simp [instanceHandler, resetHandler]
  · simp only [instanceHandler, resetHandler]
    norm_num
    decide
  · simp [instanceHandler, resetHandler, httpError]
  · simp [instanceHandler, resetHandler, httpError]
  · simp only [instanceHandler, resetHandler, httpError]
    norm_num

/-- C10: a stdin line that is empty or all whitespace makes the `Serve` loop
write no response and invoke no plugin operation; the state is unchanged. -/
theorem serveLine_blank {σ : Type} (dec : String → Except String Request)
    (pm : PluginModel σ) (s : σ) (line : String) (h : isBlank line = true) :
    serveLine dec pm s line = (s, [], []) := by
  simp [serveLine, h]

/-- Witness for `serveLine_blank` at the line of one space and one tab. -/
theorem serveLine_blank_witness :
    serveLine decFail pmUnit () " \t " = ((), [], []) :=
  serveLine_blank decFail pmUnit () " \t " (by decide)

/-- C5: a non-blank stdin line on which JSON decoding fails makes the
`Serve` loop write exactly one error response, with id 0, and invoke no
plugin operation, so the plugin state is unchanged. -/
theorem serveLine_parse_failure {σ : Type} (dec : String → Except String Request)
    (pm : PluginModel σ) (s : σ) (line m : String)
    (hb : isBlank line = false) (hd : dec line = .error m) :
    serveLine dec pm s line =
      (s, [], [{ id := 0, result := none, error := "invalid request: " ++ m }]) := by
  simp [serveLine, hb, hd]

/-- Witness for `serveLine_parse_failure` on the line `x`. -/
theorem serveLine_parse_failure_witness :
    serveLine decFail pmUnit () "x" =
      ((), [], [{ id := 0, result := none,
                  error := "invalid request: unexpected end of JSON input" }]) :=
  serveLine_parse_failure decFail pmUnit () "x" "unexpected end of JSON input"
    (by decide) rfl

/-- C9 (amended): a request whose method is none of the four known ones gets
a response carrying the request's id, an empty result, and the error text
`unknown method: ` followed by the method name formatted with Go's `%q`
verb, i.e. wrapped in double quotes; no plugin operation runs and the state
is unchanged. -/
theorem dispatch_unknown_method {σ : Type} (pm : PluginModel σ) (s : σ) (req : Request)
    (h1 : req.method ≠ "info") (h2 : req.method ≠ "configure")
    (h3 : req.method ≠ "http") (h4 : req.method ≠ "reset") :
    dispatch pm s req =
      (s, [], { id := req.id, result := none,
                error := "unknown method: " ++ goQuote req.method }) := by
  simp [dispatch, h1, h2, h3, h4]

/-- Witness for `dispatch_unknown_method` at the method `frobnicate`. -/
theorem dispatch_unknown_method_witness :
    dispatch pmUnit () { id := 7, method := "frobnicate", params := none } =
      ((), [], { id := 7, result := none,
                 error := "unknown method: " ++ goQuote "frobnicate" }) :=
  dispatch_unknown_method pmUnit () { id := 7, method := "frobnicate", params := none }
    (by decide) (by decide) (by decide) (by decide)

/-- C9 counterexample to the claim as stated: for the unrecognized method
`frobnicate` the error text is not `unknown method: frobnicate`; the `%q`
verb produces `unknown method: "frobnicate"`, with quotes around the name. -/
theorem dispatch_unknown_method_cex :
    (dispatch pmUnit () { id := 7, method := "frobnicate", params := none }).2.2.error ≠
        "unknown method: frobnicate" ∧
    (dispatch pmUnit () { id := 7, method := "frobnicate", params := none }).2.2.error =
        "unknown method: \"frobnicate\"" := by
  constructor
  · decide
  · decide

/-- Structural facts about one `ExternalPlugin.call`: the id counter is
incremented exactly once (before any I/O), exactly one transport outcome is
consumed, and the request sent carries the old counter value, the method,
and the params. -/
theorem call_components (st : ExtState) (m : String) (p : Option Payload)
    (script : List Transport) :
    (ExternalPlugin.call st m p script).1 = { st with next := st.next + 1 } ∧
    (ExternalPlugin.call st m p script).2.1 = script.drop 1 ∧
    (ExternalPlugin.call st m p script).2.2.1 = { id := st.next, method := m, params := p } := by
  cases script with
  | nil => simp [ExternalPlugin.call]
  | cons t rest =>
      cases t with
      | ok resp =>
          by_cases he : resp.error = "" <;> simp [ExternalPlugin.call, he]
      | writeErr m2 => simp [ExternalPlugin.call]
      | readErr m2 => simp [ExternalPlugin.call]
      | closed => simp [ExternalPlugin.call]
      | badJson m2 => simp [ExternalPlugin.call]

/-- C6: when the round trip to the subprocess fails at the transport level
(write failure, read failure, closed or exhausted stdout, malformed response
JSON, an error response, or a result that does not decode as an
`HTTPResult`), `ExternalPlugin.ServeHTTP` answers the original HTTP caller
with status 502; it sends exactly one request and consumes exactly one
transport outcome, so nothing is retried and no restart is modelled — and
being a total function it returns normally. -/
theorem serveHTTP_transport_failure_502 (st : ExtState) (script : List Transport)
    (m up q : String) (hs : List (String × String)) (b : String)
    (h : httpCallFails script = true) :
    (ExternalPlugin.serveHTTP st script m up q hs b).2.2.2.status = 502 ∧
    (ExternalPlugin.serveHTTP st script m up q hs b).2.2.1.length = 1 ∧
    (ExternalPlugin.serveHTTP st script m up q hs b).2.1 = script.drop 1 := by
  cases script with
  | nil => simp [ExternalPlugin.serveHTTP, ExternalPlugin.call, httpError]
  | cons t rest =>
      cases t with
      | ok resp =>
          by_cases he : resp.error = ""
          · have hr : decodeHTTPResult resp.result = .error
                "json: cannot unmarshal into HTTPResult" := by
              simp only [httpCallFails, he, if_true] at h
              cases hres : resp.result with
              | none => simp [decodeHTTPResult]
              | some pl =>
                  cases pl <;> simp_all [decodeHTTPResult]
            simp [ExternalPlugin.serveHTTP, ExternalPlugin.call, he, hr, httpError]
          · simp [ExternalPlugin.serveHTTP, ExternalPlugin.call, he, httpError]
      | writeErr msg => simp [ExternalPlugin.serveHTTP, ExternalPlugin.call, httpError]
      | readErr msg => simp [ExternalPlugin.serveHTTP, ExternalPlugin.call, httpError]
      | closed => simp [ExternalPlugin.serveHTTP, ExternalPlugin.call, httpError]
      | badJson msg => simp [ExternalPlugin.serveHTTP, ExternalPlugin.call, httpError]

/-- Witness for `serveHTTP_transport_failure_502`: the subprocess has closed
stdout (exhausted script). -/
theorem serveHTTP_transport_failure_502_witness :
    (ExternalPlugin.serveHTTP { next := 1, info := { name := "", version := "" } } []
        "GET" "/items" "x=1" [] "").2.2.2.status = 502 ∧
    (ExternalPlugin.serveHTTP { next := 1, info := { name := "", version := "" } } []
        "GET" "/items" "x=1" [] "").2.2.1.length = 1 ∧
    (ExternalPlugin.serveHTTP { next := 1, info := { name := "", version := "" } } []
        "GET" "/items" "x=1" [] "").2.1 = List.drop 1 [] :=
  serveHTTP_transport_failure_502 { next := 1, info := { name := "", version := "" } } []
    "GET" "/items" "x=1" [] "" rfl

/-- The id sequence and transport consumption of a sequence of adapter
calls, for an arbitrary starting counter. -/
theorem runCalls_spec (ops : List (String × Option Payload)) :
    ∀ (st : ExtState) (script : List Transport),
    ((runCalls st ops script).2.2).map Request.id = List.range' st.next ops.length ∧
    (runCalls st ops script).2.1 = script.drop ops.length := by
  induction ops with
  | nil => intro st script; simp [runCalls]
  | cons op rest ih =>
      intro st script
      obtain ⟨m, p⟩ := op
      have hc := call_components st m p script
      have hr := ih (ExternalPlugin.call st m p script).1
        (ExternalPlugin.call st m p script).2.1
      rw [hc.1, hc.2.1] at hr
      constructor
      · simp only [runCalls, List.map_cons, hc.2.2, List.length_cons, List.range'_succ]
        rw [hc.1, hc.2.1]
        exact congrArg (List.cons st.next) hr.1
      · simp only [runCalls, List.length_cons]
        rw [hc.1, hc.2.1, hr.2, List.drop_drop, Nat.add_comm]

/-- C8: starting from a fresh adapter (`next = 1`, as set by
`StartExternalPlugin`), a sequence of calls sends requests with ids
1, 2, 3, …: each call uses the current counter and increments it by one, so
the ids are exactly `range' 1 n` and strictly increasing; and each call's
response is consumed from the transport before the next request is sent, so
after `n` calls exactly the first `n` transport outcomes are gone (no
pipelining). -/
theorem runCalls_ids_strictly_increasing_from_one (i0 : PluginInfo)
    (ops : List (String × Option Payload)) (script : List Transport) :
    ((runCalls { next := 1, info := i0 } ops script).2.2).map Request.id =
        List.range' 1 ops.length ∧
    (((runCalls { next := 1, info := i0 } ops script).2.2).map Request.id).Pairwise (· < ·) ∧
    (runCalls { next := 1, info := i0 } ops script).2.1 = script.drop ops.length := by
  have h := runCalls_spec ops { next := 1, info := i0 } script
  refine ⟨h.1, ?_, h.2⟩
  rw [h.1]
  exact List.pairwise_lt_range' 1 ops.length

/-- C1: for an HTTP request proxied through the adapter to a subprocess
running the stock dispatcher, the `http` call's params carry the path with
its raw query string verbatim (`urlPath ++ "?" ++ rawQuery`), the dispatcher
delivers exactly those params to the plugin's handler, and the status,
headers, and body of the `HTTPResult` the subprocess returns are replayed
unchanged onto the real HTTP response. -/
theorem external_roundtrip_path_and_replay {σ : Type} (pm : PluginModel σ)
    (s : σ) (st : ExtState) (m urlPath rawQuery : String)
    (hs : List (String × String)) (b : String)
    (hq : rawQuery ≠ "")
    (hnew : pm.newReqErr ⟨m, urlPath ++ "?" ++ rawQuery, hs, b⟩ = none) :
    (ExternalPlugin.serveHTTP st
        [Transport.ok (dispatch pm s ⟨st.next, "http",
            some (.httpReqP ⟨m, urlPath ++ "?" ++ rawQuery, hs, b⟩)⟩).2.2]
        m urlPath rawQuery hs b).2.2.1 =
      [⟨st.next, "http", some (.httpReqP ⟨m, urlPath ++ "?" ++ rawQuery, hs, b⟩)⟩] ∧
    (dispatch pm s ⟨st.next, "http",
        some (.httpReqP ⟨m, urlPath ++ "?" ++ rawQuery, hs, b⟩)⟩).2.1 =
      [PluginOp.serveHTTPOp] ∧
    (dispatch pm s ⟨st.next, "http",
        some (.httpReqP ⟨m, urlPath ++ "?" ++ rawQuery, hs, b⟩)⟩).2.2 =
      ⟨st.next,
       some (.httpResP (pm.serveHTTP s ⟨m, urlPath ++ "?" ++ rawQuery, hs, b⟩).2), ""⟩ ∧
    (ExternalPlugin.serveHTTP st
        [Transport.ok (dispatch pm s ⟨st.next, "http",
            some (.httpReqP ⟨m, urlPath ++ "?" ++ rawQuery, hs, b⟩)⟩).2.2]
        m urlPath rawQuery hs b).2.2.2 =
      ⟨(pm.serveHTTP s ⟨m, urlPath ++ "?" ++ rawQuery, hs, b⟩).2.status,
       (pm.serveHTTP s ⟨m, urlPath ++ "?" ++ rawQuery, hs, b⟩).2.headers,
       (pm.serveHTTP s ⟨m, urlPath ++ "?" ++ rawQuery, hs, b⟩).2.body⟩ := by
  have hd : dispatch pm s ⟨st.next, "http",
      some (.httpReqP ⟨m, urlPath ++ "?" ++ rawQuery, hs, b⟩)⟩ =
      ((pm.serveHTTP s ⟨m, urlPath ++ "?" ++ rawQuery, hs, b⟩).1,
       [PluginOp.serveHTTPOp],
       ⟨st.next,
        some (.httpResP (pm.serveHTTP s ⟨m, urlPath ++ "?" ++ rawQuery, hs, b⟩).2), ""⟩) := by
    simp [dispatch, handleHTTP, decodeHTTPRequestParams, hnew]
  refine ⟨?_, ?_, ?_, ?_⟩
  · rw [hd]
    simp [ExternalPlugin.serveHTTP, ExternalPlugin.call, hq, decodeHTTPResult]
  · rw [hd]
  · rw [hd]
  · rw [hd]
    simp [ExternalPlugin.serveHTTP, ExternalPlugin.call, hq, decodeHTTPResult]

/-- Witness for `external_roundtrip_path_and_replay`: the request
`GET /items?x=1` against the trivial plugin. -/
theorem external_roundtrip_path_and_replay_witness :
    (ExternalPlugin.serveHTTP ⟨1, ⟨"", ""⟩⟩
        [Transport.ok (dispatch pmUnit () ⟨1, "http",
            some (.httpReqP ⟨"GET", "/items" ++ "?" ++ "x=1", [], ""⟩)⟩).2.2]
        "GET" "/items" "x=1" [] "").2.2.1 =
      [⟨1, "http", some (.httpReqP ⟨"GET", "/items" ++ "?" ++ "x=1", [], ""⟩)⟩] ∧
    (dispatch pmUnit () ⟨1, "http",
        some (.httpReqP ⟨"GET", "/items" ++ "?" ++ "x=1", [], ""⟩)⟩).2.1 =
      [PluginOp.serveHTTPOp] ∧
    (dispatch pmUnit () ⟨1, "http",
        some (.httpReqP ⟨"GET", "/items" ++ "?" ++ "x=1", [], ""⟩)⟩).2.2 =
      ⟨1, some (.httpResP (pmUnit.serveHTTP ()
          ⟨"GET", "/items" ++ "?" ++ "x=1", [], ""⟩).2), ""⟩ ∧
    (ExternalPlugin.serveHTTP ⟨1, ⟨"", ""⟩⟩
        [Transport.ok (dispatch pmUnit () ⟨1, "http",
            some (.httpReqP ⟨"GET", "/items" ++ "?" ++ "x=1", [], ""⟩)⟩).2.2]
        "GET" "/items" "x=1" [] "").2.2.2 =
      ⟨(pmUnit.serveHTTP () ⟨"GET", "/items" ++ "?" ++ "x=1", [], ""⟩).2.status,
       (pmUnit.serveHTTP () ⟨"GET", "/items" ++ "?" ++ "x=1", [], ""⟩).2.headers,
       (pmUnit.serveHTTP () ⟨"GET", "/items" ++ "?" ++ "x=1", [], ""⟩).2.body⟩ :=
  external_roundtrip_path_and_replay pmUnit () ⟨1, ⟨"", ""⟩⟩
    "GET" "/items" "x=1" [] "" (by decide) rfl


/-- C7: `ExternalPlugin.Configure` first issues an `info` call and — when it
succeeds — caches the decoded `PluginInfo` before issuing a `configure` call
with the environment map; a failure of either call (or of decoding the info)
makes Configure return an error; and `Info` thereafter returns the cached
`PluginInfo` (it is a pure projection of the adapter state, performing no
protocol call). -/
theorem external_configure_behavior (st : ExtState) (env : List (String × String))
    (script : List Transport) :
    ((ExternalPlugin.configure st script env).2.2.1 =
        [{ id := st.next, method := "info", params := none }] ∨
      (ExternalPlugin.configure st script env).2.2.1 =
        [{ id := st.next, method := "info", params := none },
         { id := st.next + 1, method := "configure",
           params := some (.confP { env := env }) }]) ∧
    (∀ resp rest i, script = Transport.ok resp :: rest → resp.error = "" →
        resp.result = some (.infoP i) →
        (ExternalPlugin.configure st script env).1.info = i ∧
        ExternalPlugin.infoFn (ExternalPlugin.configure st script env).1 = i) ∧
    (infoCallFails script = true →
        (ExternalPlugin.configure st script env).2.2.2 ≠ none) ∧
    (∀ resp rest i, script = Transport.ok resp :: rest → resp.error = "" →
        resp.result = some (.infoP i) → callFails rest = true →
        (ExternalPlugin.configure st script env).2.2.2 ≠ none) := by
  refine ⟨?_, ?_, ?_, ?_⟩
  · cases script with
    | nil => simp [ExternalPlugin.configure, ExternalPlugin.call]
    | cons t rest =>
        cases t with
        | ok resp =>
            by_cases he : resp.error = ""
            · cases hres : resp.result with
              | none => simp [ExternalPlugin.configure, ExternalPlugin.call, he, hres,
                  decodePluginInfo]
              | some pl =>
                  cases pl with
                  | infoP i =>
                      right
                      cases rest with
                      | nil => simp [ExternalPlugin.configure, ExternalPlugin.call,
                          he, hres, decodePluginInfo]
                      | cons t2 rest2 =>
                          cases t2 with
                          | ok resp2 =>
                              by_cases he2 : resp2.error = "" <;>
                                simp [ExternalPlugin.configure, ExternalPlugin.call,
                                  he, hres, decodePluginInfo, he2]
                          | writeErr m2 => simp [ExternalPlugin.configure,
                              ExternalPlugin.call, he, hres, decodePluginInfo]
                          | readErr m2 => simp [ExternalPlugin.configure,
                              ExternalPlugin.call, he, hres, decodePluginInfo]
                          | closed => simp [ExternalPlugin.configure,
                              ExternalPlugin.call, he, hres, decodePluginInfo]
                          | badJson m2 => simp [ExternalPlugin.configure,
                              ExternalPlugin.call, he, hres, decodePluginInfo]
                  | emptyObj => simp [ExternalPlugin.configure, ExternalPlugin.call,
                      he, hres, decodePluginInfo]
                  | httpReqP p => simp [ExternalPlugin.configure, ExternalPlugin.call,
                      he, hres, decodePluginInfo]
                  | httpResP r => simp [ExternalPlugin.configure, ExternalPlugin.call,
                      he, hres, decodePluginInfo]
                  | confP c => simp [ExternalPlugin.configure, ExternalPlugin.call,
                      he, hres, decodePluginInfo]
                  | raw s2 => simp [ExternalPlugin.configure, ExternalPlugin.call,
                      he, hres, decodePluginInfo]
            · simp [ExternalPlugin.configure, ExternalPlugin.call, he]
        | writeErr m2 => simp [ExternalPlugin.configure, ExternalPlugin.call]
        | readErr m2 => simp [ExternalPlugin.configure, ExternalPlugin.call]
        | closed => simp [ExternalPlugin.configure, ExternalPlugin.call]
        | badJson m2 => simp [ExternalPlugin.configure, ExternalPlugin.call]
  · rintro resp rest i rfl he hres
    cases rest with
    | nil => simp [ExternalPlugin.configure, ExternalPlugin.call, he, hres,
        decodePluginInfo, ExternalPlugin.infoFn]
    | cons t2 rest2 =>
        cases t2 with
        | ok resp2 =>
            by_cases he2 : resp2.error = "" <;>
              simp [ExternalPlugin.configure, ExternalPlugin.call, he, hres,
                decodePluginInfo, ExternalPlugin.infoFn, he2]
        | writeErr m2 => simp [ExternalPlugin.configure, ExternalPlugin.call, he,
            hres, decodePluginInfo, ExternalPlugin.infoFn]
        | readErr m2 => simp [ExternalPlugin.configure, ExternalPlugin.call, he,
            hres, decodePluginInfo, ExternalPlugin.infoFn]
        | closed => simp [ExternalPlugin.configure, ExternalPlugin.call, he,
            hres, decodePluginInfo, ExternalPlugin.infoFn]
        | badJson m2 => simp [ExternalPlugin.configure, ExternalPlugin.call, he,
            hres, decodePluginInfo, ExternalPlugin.infoFn]
  · intro hfail
    cases script with
    | nil => simp [ExternalPlugin.configure, ExternalPlugin.call]
    | cons t rest =>
        cases t with
        | ok resp =>
            by_cases he : resp.error = ""
            · cases hres : resp.result with
              | none => simp [ExternalPlugin.configure, ExternalPlugin.call, he, hres,
                  decodePluginInfo]
              | some pl =>
                  cases pl with
                  | infoP i => simp [infoCallFails, he, hres] at hfail
                  | emptyObj => simp [ExternalPlugin.configure, ExternalPlugin.call,
                      he, hres, decodePluginInfo]
                  | httpReqP p => simp [ExternalPlugin.configure, ExternalPlugin.call,
                      he, hres, decodePluginInfo]
                  | httpResP r => simp [ExternalPlugin.configure, ExternalPlugin.call,
                      he, hres, decodePluginInfo]
                  | confP c => simp [ExternalPlugin.configure, ExternalPlugin.call,
                      he, hres, decodePluginInfo]
                  | raw s2 => simp [ExternalPlugin.configure, ExternalPlugin.call,
                      he, hres, decodePluginInfo]
            · simp [ExternalPlugin.configure, ExternalPlugin.call, he]
        | writeErr m2 => simp [ExternalPlugin.configure, ExternalPlugin.call]
        | readErr m2 => simp [ExternalPlugin.configure, ExternalPlugin.call]
        | closed => simp [ExternalPlugin.configure, ExternalPlugin.call]
        | badJson m2 => simp [ExternalPlugin.configure, ExternalPlugin.call]
  · rintro resp rest i rfl he hres hfail
    cases rest with
    | nil => simp [ExternalPlugin.configure, ExternalPlugin.call, he, hres,
        decodePluginInfo]
    | cons t2 rest2 =>
        cases t2 with
        | ok resp2 =>
            by_cases he2 : resp2.error = ""
            · simp [callFails, he2] at hfail
            · simp [ExternalPlugin.configure, ExternalPlugin.call, he, hres,
                decodePluginInfo, he2]
        | writeErr m2 => simp [ExternalPlugin.configure, ExternalPlugin.call, he, hres,
            decodePluginInfo]
        | readErr m2 => simp [ExternalPlugin.configure, ExternalPlugin.call, he, hres,
            decodePluginInfo]
        | closed => simp [ExternalPlugin.configure, ExternalPlugin.call, he, hres,
            decodePluginInfo]
        | badJson m2 => simp [ExternalPlugin.configure, ExternalPlugin.call, he, hres,
            decodePluginInfo]

/-- Witness for `external_configure_behavior`: a two-response script on
which both calls succeed; the decoded github info ends up cached and is what
`Info` returns. -/
theorem external_configure_behavior_witness :
    (ExternalPlugin.configure ⟨1, ⟨"", ""⟩⟩
        [Transport.ok ⟨1, some (.infoP ⟨"github", "v1"⟩), ""⟩,
         Transport.ok ⟨2, some .emptyObj, ""⟩]
        [("DEFAULT_ORG", "acme")]).1.info = ⟨"github", "v1"⟩ ∧
    ExternalPlugin.infoFn
      (ExternalPlugin.configure ⟨1, ⟨"", ""⟩⟩
        [Transport.ok ⟨1, some (.infoP ⟨"github", "v1"⟩), ""⟩,
         Transport.ok ⟨2, some .emptyObj, ""⟩]
        [("DEFAULT_ORG", "acme")]).1 = ⟨"github", "v1"⟩ :=
  (external_configure_behavior ⟨1, ⟨"", ""⟩⟩ [("DEFAULT_ORG", "acme")]
      [Transport.ok ⟨1, some (.infoP ⟨"github", "v1"⟩), ""⟩,
       Transport.ok ⟨2, some .emptyObj, ""⟩]).2.1
    ⟨1, some (.infoP ⟨"github", "v1"⟩), ""⟩
    [Transport.ok ⟨2, some .emptyObj, ""⟩]
    ⟨"github", "v1"⟩ rfl rfl rfl

/-- An event that happens before another in a trace yields the two-element
sublist, which is refutable by computation on a concrete trace. -/
theorem precedes_to_sublist {t : List SEvent} {a b : SEvent} (h : precedes t a b) :
    List.Sublist [a, b] t := by
  obtain ⟨l₁, l₂, l₃, rfl⟩ := h
  rw [List.append_assoc, List.cons_append]
  have h1 : List.Sublist [b] (l₂ ++ b :: l₃) :=
    List.Sublist.trans (List.Sublist.cons₂ b (List.nil_sublist l₃))
      (List.sublist_append_right l₂ (b :: l₃))
  exact List.Sublist.trans (List.Sublist.cons₂ a h1)
    (List.sublist_append_right l₁ (a :: (l₂ ++ b :: l₃)))

/-- C4 counterexample to the claim as stated: with two external instances,
the shutdown loop interleaves per instance — the trace is
`shutdown 0, stop 0, shutdown 1, stop 1, joinAll` — so the `Shutdown` of
instance 1 does NOT happen before the `Stop` of instance 0, refuting the
all-pairs ordering; both events do occur in the trace. -/
theorem run_shutdown_all_pairs_cex :
    SEvent.shutdown 1 ∈ shutdownTrace [true, true] ∧
    SEvent.stop 0 ∈ shutdownTrace [true, true] ∧
    ¬ precedes (shutdownTrace [true, true]) (SEvent.shutdown 1) (SEvent.stop 0) := by
  refine ⟨by decide, by decide, fun h => absurd (precedes_to_sublist h) (by decide)⟩

/-- Position of a selected instance's shutdown and stop events inside the
loop's event list, for an arbitrary starting index. -/
theorem shutdownEvents_stop_split :
    ∀ (exts : List Bool) (k i : Nat), exts.get? i = some true →
    ∃ l₁ l₂ l₃, shutdownEvents k exts =
      l₁ ++ SEvent.shutdown (k + i) :: l₂ ++ SEvent.stop (k + i) :: l₃ := by
  intro exts
  induction exts with
  | nil => intro k i h; simp at h
  | cons ext rest ih =>
      intro k i h
      cases i with
      | zero =>
          have hext : ext = true := by simpa using h
          subst hext
          exact ⟨[], [], shutdownEvents (k + 1) rest, by simp [shutdownEvents]⟩
      | succ i' =>
          have h' : rest.get? i' = some true := by simpa using h
          obtain ⟨l₁, l₂, l₃, hs⟩ := ih (k + 1) i' h'
          refine ⟨SEvent.shutdown k :: (if ext then [SEvent.stop k] else []) ++ l₁,
            l₂, l₃, ?_⟩
          have hidx : k + (i' + 1) = k + 1 + i' := by omega
          rw [hidx]
          simp only [shutdownEvents, hs, List.cons_append, List.append_assoc]

/-- C4 (amended): on cancellation the shutdown loop handles instances one at
a time in index order, and for each external instance `i` the `Shutdown` of
instance `i`'s HTTP server happens before the `Stop` of instance `i`'s own
subprocess (a later instance's `Shutdown`, however, follows an earlier
instance's `Stop`); all serve routines are joined (`wg.Wait`) only after
every `Shutdown` and every `Stop`. -/
theorem run_shutdown_per_instance_order (exts : List Bool) :
    (∀ i, exts.get? i = some true →
        precedes (shutdownTrace exts) (SEvent.shutdown i) (SEvent.stop i)) ∧
    (∀ e ∈ shutdownEvents 0 exts, precedes (shutdownTrace exts) e SEvent.joinAll) := by
  constructor
  · intro i hi
    obtain ⟨l₁, l₂, l₃, hs⟩ := shutdownEvents_stop_split exts 0 i hi
    rw [Nat.zero_add] at hs
    refine ⟨l₁, l₂, l₃ ++ [SEvent.joinAll], ?_⟩
    rw [shutdownTrace, hs]
    simp [List.append_assoc]
  · intro e he
    obtain ⟨s1, s2, hsplit⟩ := List.append_of_mem he
    refine ⟨s1, s2, [], ?_⟩
    simp [shutdownTrace, hsplit]

/-- Witness for `run_shutdown_per_instance_order`: one external instance. -/
theorem run_shutdown_per_instance_order_witness :
    precedes (shutdownTrace [true]) (SEvent.shutdown 0) (SEvent.stop 0) ∧
    precedes (shutdownTrace [true]) (SEvent.stop 0) SEvent.joinAll :=
  ⟨(run_shutdown_per_instance_order [true]).1 0 rfl,
   (run_shutdown_per_instance_order [true]).2 (SEvent.stop 0) (by decide)⟩

/-- C3 (amended): `New` fails with the unknown-plugin-type error (for type
`t`) iff, scanning the configs in order, every earlier config builds and
configures successfully and the first failing config has an empty subprocess
command and a type absent from the constructor table (and `t` is that type).
In particular the error only ever arises at a config with an empty command:
configs with a non-empty command never take the constructor-table path. -/
theorem newEngine_unknown_type_iff (reg : List String)
    (se ce : Service → Option String) (t : String) :
    ∀ cfgs : List Service,
    (newEngine reg se ce cfgs = .error (.unknownPluginType t) ↔
      ∃ pre s0 post, cfgs = pre ++ s0 :: post ∧
        (∀ s ∈ pre, buildsOk reg se ce s) ∧
        s0.command = [] ∧ s0.type ∉ reg ∧ t = s0.type) := by
  intro cfgs
  induction cfgs with
  | nil =>
      constructor
      · intro h; simp [newEngine] at h
      · rintro ⟨pre, s0, post, h, -, -, -, -⟩
        cases pre <;> simp at h
  | cons svc rest ih =>
      by_cases hcmd : 0 < svc.command.length
      · cases hse : se svc with
        | some msg =>
            constructor
            · intro h; simp [newEngine, hcmd, hse] at h
            · rintro ⟨pre, s0, post, h, hpre, hc0, hr0, ht0⟩
              cases pre with
              | nil =>
                  simp only [List.nil_append, List.cons.injEq] at h
                  rw [← h.1] at hc0
                  rw [hc0] at hcmd
                  simp at hcmd
              | cons x pre' =>
                  simp only [List.cons_append, List.cons.injEq] at h
                  have hb := hpre x (by simp)
                  rw [← h.1, buildsOk, if_pos hcmd] at hb
                  rw [hse] at hb
                  simp at hb
        | none =>
            cases hce : ce svc with
            | some msg =>
                constructor
                · intro h; simp [newEngine, hcmd, hse, hce] at h
                · rintro ⟨pre, s0, post, h, hpre, hc0, hr0, ht0⟩
                  cases pre with
                  | nil =>
                      simp only [List.nil_append, List.cons.injEq] at h
                      rw [← h.1] at hc0
                      rw [hc0] at hcmd
                      simp at hcmd
                  | cons x pre' =>
                      simp only [List.cons_append, List.cons.injEq] at h
                      have hb := hpre x (by simp)
                      rw [← h.1, buildsOk, if_pos hcmd] at hb
                      rw [hce] at hb
                      simp at hb
            | none =>
                constructor
                · intro h
                  have hrec : newEngine reg se ce rest = .error (.unknownPluginType t) := by
                    rcases hr : newEngine reg se ce rest with e | is
                    · simp only [newEngine, if_pos hcmd, hse, hce, hr] at h
                      exact h
                    · simp [newEngine, hcmd, hse, hce, hr] at h
                  obtain ⟨pre, s0, post, hsplit, hpre, hc0, hr0, ht0⟩ := ih.mp hrec
                  refine ⟨svc :: pre, s0, post, by simp [hsplit], ?_, hc0, hr0, ht0⟩
                  intro s hsmem
                  rcases List.mem_cons.mp hsmem with rfl | hsmem'
                  · rw [buildsOk, if_pos hcmd]; exact ⟨hse, hce⟩
                  · exact hpre s hsmem'
                · rintro ⟨pre, s0, post, h, hpre, hc0, hr0, ht0⟩
                  cases pre with
                  | nil =>
                      simp only [List.nil_append, List.cons.injEq] at h
                      rw [← h.1] at hc0
                      rw [hc0] at hcmd
                      simp at hcmd
                  | cons x pre' =>
                      simp only [List.cons_append, List.cons.injEq] at h
                      have hrec : newEngine reg se ce rest = .error (.unknownPluginType t) :=
                        ih.mpr ⟨pre', s0, post, h.2, fun s hs => hpre s (by simp [hs]),
                          hc0, hr0, ht0⟩
                      simp [newEngine, hcmd, hse, hce, hrec]
      · by_cases hreg : svc.type ∈ reg
        · cases hce : ce svc with
          | some msg =>
              constructor
              · intro h; simp [newEngine, hcmd, hreg, hce] at h
              · rintro ⟨pre, s0, post, h, hpre, hc0, hr0, ht0⟩
                cases pre with
                | nil =>
                    simp only [List.nil_append, List.cons.injEq] at h
                    rw [← h.1] at hr0
                    exact absurd hreg hr0
                | cons x pre' =>
                    simp only [List.cons_append, List.cons.injEq] at h
                    have hb := hpre x (by simp)
                    rw [← h.1, buildsOk, if_neg hcmd] at hb
                    rw [hce] at hb
                    simp at hb
          | none =>
              constructor
              · intro h
                have hrec : newEngine reg se ce rest = .error (.unknownPluginType t) := by
                  rcases hr : newEngine reg se ce rest with e | is
                  · simp only [newEngine, if_neg hcmd, if_pos hreg, hce, hr] at h
                    exact h
                  · simp [newEngine, hcmd, hreg, hce, hr] at h
                obtain ⟨pre, s0, post, hsplit, hpre, hc0, hr0, ht0⟩ := ih.mp hrec
                refine ⟨svc :: pre, s0, post, by simp [hsplit], ?_, hc0, hr0, ht0⟩
                intro s hsmem
                rcases List.mem_cons.mp hsmem with rfl | hsmem'
                · rw [buildsOk, if_neg hcmd]; exact ⟨hreg, hce⟩
                · exact hpre s hsmem'
              · rintro ⟨pre, s0, post, h, hpre, hc0, hr0, ht0⟩
                cases pre with
                | nil =>
                    simp only [List.nil_append, List.cons.injEq] at h
                    rw [← h.1] at hr0
                    exact absurd hreg hr0
                | cons x pre' =>
                    simp only [List.cons_append, List.cons.injEq] at h
                    have hrec : newEngine reg se ce rest = .error (.unknownPluginType t) :=
                      ih.mpr ⟨pre', s0, post, h.2, fun s hs => hpre s (by simp [hs]),
                        hc0, hr0, ht0⟩
                    simp [newEngine, hcmd, hreg, hce, hrec]
        · constructor
          · intro h
            have hcmd0 : svc.command = [] :=
              List.length_eq_zero.mp (Nat.eq_zero_of_not_pos hcmd)
            have ht : svc.type = t := by
              simp [newEngine, hcmd, hreg] at h
              exact h
            exact ⟨[], svc, rest, rfl, by simp, hcmd0, hreg, ht.symm⟩
          · rintro ⟨pre, s0, post, h, hpre, hc0, hr0, ht0⟩
            cases pre with
            | nil =>
                simp only [List.nil_append, List.cons.injEq] at h
                rw [← h.1] at ht0
                subst ht0
                simp [newEngine, hcmd, hreg]
            | cons x pre' =>
                simp only [List.cons_append, List.cons.injEq] at h
                have hb := hpre x (by simp)
                rw [← h.1, buildsOk, if_neg hcmd] at hb
                exact absurd hb.1 hreg

/-- Witness for `newEngine_unknown_type_iff`: a single config of unknown
type `okta` with no subprocess command. -/
theorem newEngine_unknown_type_iff_witness :
    newEngine regGitJira spawnFailBad confOk [svcUnknown] =
      .error (.unknownPluginType "okta") :=
  (newEngine_unknown_type_iff regGitJira spawnFailBad confOk "okta" [svcUnknown]).mpr
    ⟨[], svcUnknown, [], rfl, by simp, rfl, by decide, rfl⟩

set_option maxRecDepth 10000 in
/-- C3 counterexample to the claim as stated: with the registry key set
`github, jira`, the config list `[svcExt, svcUnknown]` has a config with an
empty command and an unregistered type (the second), yet `New` does not
return an error mentioning `unknown plugin type`: it fails first on the
earlier external config whose subprocess cannot be spawned (fail-fast, in
order), so the claimed equivalence is false at this input. -/
theorem newEngine_unknown_type_cex :
    ¬ ((∃ e, newEngine regGitJira spawnFailBad confOk [svcExt, svcUnknown] = .error e ∧
          ("unknown plugin type").data <:+: e.render.data) ↔
        ∃ s0 ∈ [svcExt, svcUnknown], s0.command = [] ∧ s0.type ∉ regGitJira) := by
  intro h
  obtain ⟨e, he, hinf⟩ := h.mpr (by decide)
  have hcomp : newEngine regGitJira spawnFailBad confOk [svcExt, svcUnknown] =
      .error (.startExternal "custom" "bad"
        "fork/exec ./nonexistent: no such file or directory") := by rfl
  rw [hcomp] at he
  injection he with h1
  subst h1
  exact absurd hinf (by decide)

end DoubleAgent
